import Mathlib

/-!
Shallow embedding of the resumable App Store keyword-scoring pipeline of this
repository: the `ASOAnalyzer` service class (keyword scorer) and the batch
loop, checkpointing, ranking and summary rendering of `main.js`.

Modelling conventions:
* Integral JavaScript numbers (the 0..100 scores) are modelled as `Int`; the
  raw provider scores (floats on a 0..10 scale) are modelled as `Rat`.
  `Math.round` is modelled by Mathlib's `round`, which satisfies
  `round x = ⌊x + 1/2⌋`, exactly the JavaScript `Math.round` semantics.
  Working in exact rationals is faithful here: every value the code rounds is
  of the form k/10 for an integer k, hence at least 1/10 away from the nearest
  half-integer, while the IEEE-double evaluation error of these expressions is
  far below that, so double rounding and exact rounding agree.
* `null`/`undefined` data is modelled with `Option`.
* The file system is modelled by explicit state passing: the durable progress
  file is a field of the run state, and each `fs.writeFileSync` of the
  progress file consumes one outcome from a write-outcome oracle
  (`none` = the write succeeds, `some msg` = it throws an error with message
  `msg`).  The secondary summary-text file writes (every 10 keywords) do not
  feed back into any claim and are modelled as always succeeding.
* Wall-clock reads (`new Date()`) are modelled as explicit clock parameters.
-/

namespace ASO

/-- The recommendation tiers of the pipeline (`KeywordAnalysis.recommendation`
in `src/web/src/types/index.ts`): the five classification buckets plus the
`analysis_failed` marker. -/
inductive Recommendation where
  | excellent
  | good
  | consider
  | challenging
  | avoid
  | analysisFailed
deriving DecidableEq, Repr

/-- `ASOAnalyzer.getRecommendation`: ordered first-match classification of a
(traffic, difficulty) pair into a tier. -/
def getRecommendation (trafficScore difficultyScore : ℤ) : Recommendation :=
  if trafficScore ≥ 25 ∧ difficultyScore ≤ 35 then .excellent
  else if trafficScore ≥ 15 ∧ difficultyScore ≤ 45 then .good
  else if trafficScore ≥ 40 ∧ difficultyScore ≥ 60 then .challenging
  else if trafficScore ≤ 15 ∧ difficultyScore ≥ 50 then .avoid
  else .consider

/-- `ASOAnalyzer.getCompetitionLevel`: human-readable competition level. -/
def getCompetitionLevel (difficultyScore : ℤ) : String :=
  if difficultyScore ≥ 80 then "very_high"
  else if difficultyScore ≥ 60 then "high"
  else if difficultyScore ≥ 40 then "medium"
  else if difficultyScore ≥ 20 then "low"
  else "very_low"

/-- `ASOAnalyzer.getTrafficLevel`: human-readable traffic level. -/
def getTrafficLevel (trafficScore : ℤ) : String :=
  if trafficScore ≥ 80 then "very_high"
  else if trafficScore ≥ 60 then "high"
  else if trafficScore ≥ 40 then "medium"
  else if trafficScore ≥ 20 then "low"
  else "very_low"

/-- The response value of the external traffic/difficulty provider
(`aso.analyzeKeyword`), as far as the defensive parsing in
`ASOAnalyzer.analyzeKeyword` inspects it:
* `isObject` — whether the value is a truthy object
  (the code checks `!analysis || typeof analysis !== 'object'`);
* `traffic`/`difficulty` — `none` when the subfield is absent or falsy,
  `some none` when the subfield exists but its `score` is `undefined`/`null`,
  `some (some q)` when a numeric score `q` (0..10 scale float) is present. -/
structure ProviderResp where
  isObject : Bool
  traffic : Option (Option ℚ)
  difficulty : Option (Option ℚ)
deriving DecidableEq, Repr

/-- Behaviour of one call to the external provider: it either throws an error
with a message, or returns a value. -/
inductive ProviderBehavior where
  | throwsErr (msg : String)
  | responds (r : ProviderResp)
deriving DecidableEq, Repr

/-- The object returned by `ASOAnalyzer.analyzeKeyword`.  The `rawData` and
`details` fields of the source (verbatim copies of the provider response, read
by no caller in the pipeline) are omitted. -/
structure AnalysisOutput where
  keyword : String
  platform : String
  trafficScore : Option ℤ
  difficultyScore : Option ℤ
  competitionLevel : String
  trafficLevel : String
  recommendation : Recommendation
  analysisSucceeded : Bool
  error : Option String
deriving DecidableEq, Repr

/-- The failure value returned from the `catch` block of
`ASOAnalyzer.analyzeKeyword`: null scores, `analysis_failed`, and the caught
error's message. -/
def failedAnalysis (platform keyword msg : String) : AnalysisOutput :=
  { keyword := keyword
    platform := platform
    trafficScore := none
    difficultyScore := none
    competitionLevel := "unknown"
    trafficLevel := "unknown"
    recommendation := .analysisFailed
    analysisSucceeded := false
    error := some msg }

/-- `ASOAnalyzer.analyzeKeyword`: defensive parsing of the provider response,
mirroring the source's checks in order.  Each `throw new Error(...)` inside the
`try` block lands in the same `catch` as a provider throw, producing
`failedAnalysis` with the corresponding message; the embedding shortcuts
directly to that value.  On success the raw 0..10 scores are scaled to 0..100
via `Math.round(score * 10)`. -/
def analyzeKeyword (platform : String) (b : ProviderBehavior) (keyword : String) :
    AnalysisOutput :=
  match b with
  | .throwsErr msg => failedAnalysis platform keyword msg
  | .responds r =>
    if !r.isObject then
      failedAnalysis platform keyword "ASO returned empty or invalid response"
    else
      match r.traffic with
      | none =>
        failedAnalysis platform keyword
          "No traffic data returned - keyword may have no search volume"
      | some none =>
        failedAnalysis platform keyword
          "No traffic data returned - keyword may have no search volume"
      | some (some rawTraffic) =>
        match r.difficulty with
        | none =>
          failedAnalysis platform keyword
            "No difficulty data returned - insufficient ranking data"
        | some none =>
          failedAnalysis platform keyword
            "No difficulty data returned - insufficient ranking data"
        | some (some rawDifficulty) =>
          let trafficScore100 : ℤ := round (rawTraffic * 10)
          let difficultyScore100 : ℤ := round (rawDifficulty * 10)
          { keyword := keyword
            platform := platform
            trafficScore := some trafficScore100
            difficultyScore := some difficultyScore100
            competitionLevel := getCompetitionLevel difficultyScore100
            trafficLevel := getTrafficLevel trafficScore100
            recommendation := getRecommendation trafficScore100 difficultyScore100
            analysisSucceeded := true
            error := none }

/-- `calculateOpportunityScore` of `main.js`: null if either score is null,
otherwise `Math.round(traffic * 0.6 + (100 - difficulty) * 0.4)`. -/
def calculateOpportunityScore (trafficScore difficultyScore : Option ℤ) : Option ℤ :=
  match trafficScore, difficultyScore with
  | some t, some d =>
    some (round ((t : ℚ) * (6 / 10) + ((100 : ℚ) - (d : ℚ)) * (4 / 10)))
  | _, _ => none

/-- Whitespace as matched by the JavaScript regexp `\s` and removed by
`String.prototype.trim`, restricted to the ASCII range (the claims involve
only ASCII keywords; the Unicode space separators behave identically). -/
def isJsWhitespace (c : Char) : Bool :=
  c = ' ' ∨ c = '\t' ∨ c = '\n' ∨ c = '\x0b' ∨ c = '\x0c' ∨ c = '\r'

/-- One pass of `replace(/\s+/g, ' ')`: every maximal run of whitespace
characters is replaced by a single space.  `prevWs` records whether the
previous character belonged to a run already replaced. -/
def collapseWsGo (prevWs : Bool) : List Char → List Char
  | [] => []
  | c :: cs =>
    if isJsWhitespace c then
      if prevWs then collapseWsGo true cs else ' ' :: collapseWsGo true cs
    else c :: collapseWsGo false cs

/-- `replace(/\s+/g, ' ')` on a character list. -/
def collapseWs (cs : List Char) : List Char :=
  collapseWsGo false cs

/-- `String.prototype.trim` on a character list: strip leading and trailing
whitespace. -/
def trimChars (cs : List Char) : List Char :=
  ((cs.dropWhile isJsWhitespace).reverse.dropWhile isJsWhitespace).reverse

/-- The normalization applied to each keyword by `deduplicateKeywords`:
`keyword.toLowerCase().trim().replace(/\s+/g, ' ')`.  `toLowerCase` is
modelled by `Char.toLower` (simple per-character lowercasing; the claims
involve only ASCII keywords). -/
def normalizeKeyword (s : String) : String :=
  String.mk (collapseWs (trimChars (s.data.map Char.toLower)))

/-- The loop body of `deduplicateKeywords`, with the `seen` set modelled as
the list of normalized forms already emitted. -/
def deduplicateKeywordsGo (seen : List String) : List String → List String
  | [] => []
  | k :: ks =>
    let normalized := normalizeKeyword k
    if !seen.contains normalized ∧ normalized.length > 0 then
      normalized :: deduplicateKeywordsGo (normalized :: seen) ks
    else
      deduplicateKeywordsGo seen ks

/-- `deduplicateKeywords` of `main.js`: normalize each keyword and keep the
first occurrence of each non-empty normalized form. -/
def deduplicateKeywords (keywords : List String) : List String :=
  deduplicateKeywordsGo [] keywords

/-- The per-keyword record appended to `results` by `analyzeAllKeywords`
(`main.js`). -/
structure KeywordResult where
  keyword : String
  traffic : Option ℤ
  difficulty : Option ℤ
  opportunity : Option ℤ
  recommendation : Recommendation
  analysisSucceeded : Bool
  error : Option String
  analyzedAt : String
deriving DecidableEq, Repr

/-- The durable progress artifact (`progressData` written to the progressive
JSON file by `analyzeAllKeywords`).  `appData` is the opaque app snapshot. -/
structure Checkpoint where
  appData : String
  lastAnalyzedIndex : ℕ
  totalKeywords : ℕ
  results : List KeywordResult
  lastUpdated : String
deriving DecidableEq, Repr

/-- The environment one run of the batch loop executes in:
* `behavior i` — how the external provider behaves for the keyword at index
  `i` (the scorer is called once per index);
* `time i` — the wall-clock reading during iteration `i` (`new Date()`; the
  few reads within one iteration are modelled as one instant);
* `writeRes w` — outcome of the `w`-th `fs.writeFileSync` of the progress
  file in this run: `none` = success, `some msg` = throws with message `msg`. -/
structure RunEnv where
  behavior : ℕ → ProviderBehavior
  time : ℕ → String
  writeRes : ℕ → Option String

/-- The state threaded through the batch loop:
* `results` — the in-memory result list;
* `durable` — the current durable content of the progress file
  (the last successfully written checkpoint, or the pre-run content);
* `written` — the log of checkpoints durably written by this run, in order;
* `writes` — how many progress-file write attempts have been made. -/
structure RunState where
  results : List KeywordResult
  durable : Option Checkpoint
  written : List Checkpoint
  writes : ℕ
deriving DecidableEq, Repr

/-- The result object built in the `try` block of the loop of
`analyzeAllKeywords` for index `i`: scores copied from the analysis, the
defensive `analysisSucceeded` recomputation, and the opportunity score. -/
def scoredResult (env : RunEnv) (kws : List String) (i : ℕ) : KeywordResult :=
  let keyword := kws.getD i ""
  let analysis := analyzeKeyword "itunes" (env.behavior i) keyword
  let analysisSucceeded := analysis.analysisSucceeded &&
    analysis.trafficScore.isSome && analysis.difficultyScore.isSome
  { keyword := keyword
    traffic := analysis.trafficScore
    difficulty := analysis.difficultyScore
    opportunity :=
      if analysisSucceeded then
        calculateOpportunityScore analysis.trafficScore analysis.difficultyScore
      else none
    recommendation := analysis.recommendation
    analysisSucceeded := analysisSucceeded
    error := analysis.error
    analyzedAt := env.time i }

/-- The failure record built in the `catch` block of the loop of
`analyzeAllKeywords`: all scores null, `analysis_failed`, the caught error's
message. -/
def caughtFailureResult (kws : List String) (i : ℕ) (msg : String) (t : String) :
    KeywordResult :=
  { keyword := kws.getD i ""
    traffic := none
    difficulty := none
    opportunity := none
    recommendation := .analysisFailed
    analysisSucceeded := false
    error := some msg
    analyzedAt := t }

/-- The `progressData` object written after index `i`. -/
def mkCheckpoint (appData : String) (i : ℕ) (total : ℕ)
    (results : List KeywordResult) (t : String) : Checkpoint :=
  { appData := appData
    lastAnalyzedIndex := i
    totalKeywords := total
    results := results
    lastUpdated := t }

/-- Record a successful durable write of checkpoint `cp` in state `s`. -/
def recordWrite (s : RunState) (cp : Checkpoint) : RunState :=
  { results := s.results
    durable := some cp
    written := s.written ++ [cp]
    writes := s.writes + 1 }

/-- One iteration of the loop of `analyzeAllKeywords` at index `i`.
The scorer itself never throws, so the only exceptions that can reach the
loop's `catch` block are those of the progress-file write (and of the
console/summary emissions, modelled as non-throwing).  Mirroring the source:
the scored result is appended and the checkpoint written; if that write
throws, the `catch` block appends a `caughtFailureResult` carrying the write
error's message and writes the checkpoint again; if this second write also
throws, the exception propagates and the run aborts (`Except.error` carries
the message and the state at the moment of abort, whose `durable` component
is the unchanged progress file). -/
def runStep (kws : List String) (appData : String) (env : RunEnv) (i : ℕ)
    (s : RunState) : Except (String × RunState) RunState :=
  let kr := scoredResult env kws i
  let results1 := s.results ++ [kr]
  match env.writeRes s.writes with
  | none =>
    .ok (recordWrite { s with results := results1 }
          (mkCheckpoint appData i kws.length results1 (env.time i)))
  | some msg =>
    let kr2 := caughtFailureResult kws i msg (env.time i)
    let results2 := results1 ++ [kr2]
    let s1 : RunState :=
      { s with results := results2, writes := s.writes + 1 }
    match env.writeRes s1.writes with
    | none =>
      .ok (recordWrite s1 (mkCheckpoint appData i kws.length results2 (env.time i)))
    | some msg2 =>
      .error (msg2, { s1 with writes := s1.writes + 1 })

/-- The loop of `analyzeAllKeywords` over the listed indices. -/
def runGo (kws : List String) (appData : String) (env : RunEnv) :
    List ℕ → RunState → Except (String × RunState) RunState
  | [], s => .ok s
  | i :: is, s =>
    match runStep kws appData env i s with
    | .ok s' => runGo kws appData env is s'
    | .error e => .error e

/-- The batch phase of `analyzeAllKeywords`: resume handling followed by the
loop.  `loaded` is the parsed content of an existing progress file, or `none`
when the file is missing or failed to parse (both start the run fresh).  On
resume the prior results are pushed into the in-memory list and the loop
starts at `lastAnalyzedIndex + 1`; the loop runs over indices
`startIndex .. kws.length - 1`. -/
def runBatch (kws : List String) (appData : String) (env : RunEnv)
    (loaded : Option Checkpoint) : Except (String × RunState) RunState :=
  match loaded with
  | none =>
    runGo kws appData env (List.range' 0 kws.length)
      { results := [], durable := none, written := [], writes := 0 }
  | some cp =>
    runGo kws appData env
      (List.range' (cp.lastAnalyzedIndex + 1) (kws.length - (cp.lastAnalyzedIndex + 1)))
      { results := cp.results, durable := some cp, written := [], writes := 0 }

/-- The sort key of the final ranking: `(b.opportunity || 0)` in the source's
comparator (`null` coalesces to 0). -/
def oppKey (r : KeywordResult) : ℤ :=
  r.opportunity.getD 0

/-- The order under which the successful results are sorted:
`successfulResults.sort((a, b) => (b.opportunity || 0) - (a.opportunity || 0))`
orders by key descending.  JavaScript's `Array.prototype.sort` is stable, and
the stable sort for this comparator is `List.insertionSort` with the
non-strict descending relation. -/
def finalizeRel (a b : KeywordResult) : Prop :=
  oppKey b ≤ oppKey a

instance : DecidableRel finalizeRel :=
  fun a b => inferInstanceAs (Decidable (oppKey b ≤ oppKey a))

instance : IsTotal KeywordResult finalizeRel :=
  ⟨fun a b => (le_total (oppKey b) (oppKey a)).imp id id⟩

instance : IsTrans KeywordResult finalizeRel :=
  ⟨fun _ _ _ hab hbc => le_trans hbc hab⟩

/-- The final ranking step of `analyzeAllKeywords`: partition into successful
and failed results, sort the successful ones by opportunity descending
(stable), and append the failed ones. -/
def finalizeResults (rs : List KeywordResult) : List KeywordResult :=
  List.insertionSort finalizeRel (rs.filter (·.analysisSucceeded)) ++
    rs.filter (fun r => !r.analysisSucceeded)

/-- The tier-count record (`summary` object of `generateSummaryData` and of
the final artifact). -/
structure SummaryCounts where
  total : ℕ
  analyzed : ℕ
  failed : ℕ
  excellent : ℕ
  good : ℕ
  consider : ℕ
  challenging : ℕ
  avoid : ℕ
deriving DecidableEq, Repr

/-- The intermediate summary object built by `generateSummaryData`
(`main.js`): progress metadata, the raw results, and the tier counts. -/
structure SummaryData where
  appData : String
  lastUpdated : String
  totalKeywords : ℕ
  analyzedSoFar : ℕ
  results : List KeywordResult
  summary : SummaryCounts
deriving DecidableEq, Repr

/-- Count the successful results carrying a given recommendation. -/
def countRec (rs : List KeywordResult) (rec : Recommendation) : ℕ :=
  (rs.filter (fun k => k.recommendation = rec)).length

/-- `generateSummaryData` of `main.js`.  `nowIso` is the wall-clock reading
(`new Date().toISOString()`). -/
def generateSummaryData (results : List KeywordResult) (allKeywords : List String)
    (appData : String) (nowIso : String) : SummaryData :=
  let successfulResults := results.filter (·.analysisSucceeded)
  let failedResults := results.filter (fun r => !r.analysisSucceeded)
  { appData := appData
    lastUpdated := nowIso
    totalKeywords := allKeywords.length
    analyzedSoFar := results.length
    results := results
    summary :=
      { total := results.length
        analyzed := successfulResults.length
        failed := failedResults.length
        excellent := countRec successfulResults .excellent
        good := countRec successfulResults .good
        consider := countRec successfulResults .consider
        challenging := countRec successfulResults .challenging
        avoid := countRec successfulResults .avoid } }

/-- The full-results object consumed by `generateSummaryText` when called on a
completed analysis (the return value of `analyzeApp`), restricted to the
fields the renderer reads.  Collaborator collections are represented by their
lengths, which is all the renderer uses. -/
structure FullResultsData where
  appData : String
  similarAppsCount : ℕ
  mainAppKeywordsCount : ℕ
  similarAppKeywordsCount : ℕ
  autocompleteSuggestionsCount : ℕ
  allKeywordsCount : ℕ
  keywordAnalysis : List KeywordResult
  summary : SummaryCounts
deriving DecidableEq, Repr

/-- The duck-typed input of `generateSummaryText`: the source distinguishes
the two shapes by `!results.keywordAnalysis`. -/
inductive ReportInput where
  | full (d : FullResultsData)
  | progress (d : SummaryData)
deriving DecidableEq, Repr

/-- The ambient clock/locale environment read by `generateSummaryText`:
`nowLocale` is `new Date().toLocaleString()` at evaluation time, and
`toLocale iso` is `new Date(iso).toLocaleString()`. -/
structure ClockEnv where
  nowLocale : String
  toLocale : String → String

/-- `'x'.repeat(n)` for a single character. -/
def repChar (c : Char) (n : ℕ) : String :=
  String.mk (List.replicate n c)

/-- `String.prototype.padEnd(n)` (space padding). -/
def padEnd (s : String) (n : ℕ) : String :=
  s ++ repChar ' ' (n - s.length)

/-- `String.prototype.padStart(n)` (space padding). -/
def padStart (s : String) (n : ℕ) : String :=
  repChar ' ' (n - s.length) ++ s

/-- `String(v)` for a nullable integer: JavaScript renders `null` as
`"null"`. -/
def optIntStr : Option ℤ → String
  | none => "null"
  | some n => toString n

/-- `recommendation.toUpperCase()` on the tier strings of the source. -/
def upperRec : Recommendation → String
  | .excellent => "EXCELLENT"
  | .good => "GOOD"
  | .consider => "CONSIDER"
  | .challenging => "CHALLENGING"
  | .avoid => "AVOID"
  | .analysisFailed => "ANALYSIS_FAILED"

/-- The medal marker used for the first three top opportunities. -/
def medal (i : ℕ) : String :=
  if i = 0 then "🥇" else if i = 1 then "🥈" else if i = 2 then "🥉" else "  "

/-- One line of the top-opportunities table. -/
def topOpportunityLine (i : ℕ) (k : KeywordResult) : String :=
  medal i ++ " " ++ padEnd k.keyword 30 ++ " | Traffic: " ++
    padStart (optIntStr k.traffic) 3 ++ " | Difficulty: " ++
    padStart (optIntStr k.difficulty) 3 ++ " | Opportunity: " ++
    optIntStr k.opportunity ++ " | " ++ upperRec k.recommendation

/-- One line of the worth-considering table. -/
def worthConsideringLine (k : KeywordResult) : String :=
  "   " ++ padEnd k.keyword 30 ++ " | Traffic: " ++
    padStart (optIntStr k.traffic) 3 ++ " | Difficulty: " ++
    padStart (optIntStr k.difficulty) 3 ++ " | Opportunity: " ++
    optIntStr k.opportunity

/-- `generateSummaryText` of `main.js`: the human-readable report, rendered
line by line exactly as the source pushes lines, then joined with newlines. -/
def generateSummaryText (input : ReportInput) (clock : ClockEnv) : String :=
  let keywordAnalysis :=
    match input with
    | .full d => d.keywordAnalysis
    | .progress d => d.results
  let summary :=
    match input with
    | .full d => d.summary
    | .progress d => d.summary
  let successfulAnalyses := keywordAnalysis.filter (·.analysisSucceeded)
  let failedAnalyses := keywordAnalysis.filter (fun k => !k.analysisSucceeded)
  let topOpportunities : List KeywordResult := successfulAnalyses.filter
    (fun k => decide (k.recommendation = .excellent ∨ k.recommendation = .good))
  let worthConsidering : List KeywordResult :=
    (successfulAnalyses.filter (fun k => decide (k.recommendation = .consider))).take 15
  let header : List String :=
    [repChar '=' 80, "🏆 APP STORE KEYWORD ANALYSIS REPORT", repChar '=' 80, "",
     "📱 App: " ++ (match input with | .full d => d.appData | .progress d => d.appData),
     "📊 Analysis Date: " ++ clock.nowLocale] ++
    (match input with
     | .full d =>
       ["🔍 Competitors Analyzed: " ++ toString d.similarAppsCount,
        "🏷️  Total Keywords Found: " ++ toString d.allKeywordsCount]
     | .progress d =>
       ["📈 Progress: " ++ toString d.analyzedSoFar ++ "/" ++
          toString d.totalKeywords ++ " keywords analyzed"]) ++
    [""]
  let stats : List String :=
    ["📊 ANALYSIS SUMMARY", repChar '-' 50,
     "Total Keywords: " ++ toString keywordAnalysis.length,
     "Successfully Analyzed: " ++ toString successfulAnalyses.length] ++
    (if failedAnalyses.length > 0 then
       ["⚠️  Failed to Analyze: " ++ toString failedAnalyses.length ++
          " (API returned no data)"]
     else []) ++
    ["🌟 Top Opportunities: " ++ toString (summary.excellent + summary.good),
     "📋 Worth Considering: " ++ toString summary.consider,
     "⚠️  Challenging: " ++ toString summary.challenging,
     "❌ Avoid: " ++ toString summary.avoid, ""]
  let topBlock : List String :=
    if topOpportunities.length > 0 then
      ["🌟 TOP KEYWORD OPPORTUNITIES", repChar '-' 50] ++
      (topOpportunities.take 20).mapIdx topOpportunityLine ++
      (if topOpportunities.length > 20 then
         ["   ... and " ++ toString (topOpportunities.length - 20) ++ " more"]
       else []) ++ [""]
    else []
  let considerBlock : List String :=
    if worthConsidering.length > 0 then
      ["📋 WORTH CONSIDERING", repChar '-' 50] ++
      worthConsidering.map worthConsideringLine ++ [""]
    else []
  let failedBlock : List String :=
    if failedAnalyses.length > 0 then
      ["🔧 FAILED ANALYSES (need retry)", repChar '-' 50,
       toString failedAnalyses.length ++
         " keywords could not be analyzed. These should be retried."] ++
      (failedAnalyses.take 10).map (fun k => "   - " ++ k.keyword) ++
      (if failedAnalyses.length > 10 then
         ["   ... and " ++ toString (failedAnalyses.length - 10) ++ " more"]
       else []) ++ [""]
    else []
  let tailBlock : List String :=
    match input with
    | .full d =>
      ["🔍 KEYWORD SOURCES", repChar '-' 50,
       "Main App Keywords: " ++ toString d.mainAppKeywordsCount,
       "Competitor Keywords: " ++ toString d.similarAppKeywordsCount,
       "Autocomplete Suggestions: " ++ toString d.autocompleteSuggestionsCount,
       "", "🎯 BUSINESS RECOMMENDATIONS", repChar '-' 50] ++
      (if topOpportunities.length > 0 then
         ["✅ PRIORITIZE: Focus ASO efforts on the top opportunities above",
          "   These keywords offer the best traffic-to-difficulty ratio"]
       else
         ["📊 CONSIDER: Review \"worth considering\" keywords for potential",
          "   Look for keywords that align with your app\x27s core features"]) ++
      ["", "💡 NEXT STEPS:",
       "   1. Test top keywords in app title and description",
       "   2. Monitor ranking improvements over 2-4 weeks",
       "   3. Re-run analysis quarterly as market changes"]
    | .progress d =>
      ["📈 ANALYSIS IN PROGRESS", repChar '-' 50,
       "Progress: " ++ toString d.analyzedSoFar ++ "/" ++
         toString d.totalKeywords ++ " keywords analyzed",
       "Last updated: " ++ clock.toLocale d.lastUpdated,
       "", "💡 This summary will update automatically every 10 keywords.",
       "   Check back later for more complete results!"]
  String.intercalate "\n" (header ++ stats ++ topBlock ++ considerBlock ++
    failedBlock ++ tailBlock)

/-!
## Spec-side definitions

The following definitions transcribe the specification's wording; the
refinement theorems below compare them with the embeddings of the source.
-/

/-- The classification policy as the specification words it: the exact,
ordered, first-match rules of §4.2. -/
def specRecommendationPolicy (traffic difficulty : ℤ) : Recommendation :=
  if traffic ≥ 25 ∧ difficulty ≤ 35 then .excellent
  else if traffic ≥ 15 ∧ difficulty ≤ 45 then .good
  else if traffic ≥ 40 ∧ difficulty ≥ 60 then .challenging
  else if traffic ≤ 15 ∧ difficulty ≥ 50 then .avoid
  else .consider

/-- The opportunity formula as the specification words it:
`round(traffic*0.6 + (100-difficulty)*0.4)`. -/
def specOpportunity (traffic difficulty : ℤ) : ℤ :=
  round ((traffic : ℚ) * (6 / 10) + ((100 : ℚ) - (difficulty : ℚ)) * (4 / 10))

/-- The KeywordScorer contract as the specification words it (§4.2):
validation strictly in the order — well-formed object, then a traffic
subfield with a numeric score, then a difficulty subfield with a numeric
score — with the first failing check determining the error text and
producing the failure state (`succeeded=false`, null scores,
`analysis_failed`); a provider throw is the same failure state with the
thrown message.  On success each raw score is scaled via `round(raw * 10)`
and the classification policy applied. -/
def specScorerAnalyze (platform : String) (b : ProviderBehavior) (keyword : String) :
    AnalysisOutput :=
  match b with
  | .throwsErr msg => failedAnalysis platform keyword msg
  | .responds r =>
    if r.isObject = false then
      failedAnalysis platform keyword "ASO returned empty or invalid response"
    else
      match r.traffic with
      | some (some rawTraffic) =>
        match r.difficulty with
        | some (some rawDifficulty) =>
          let t : ℤ := round (rawTraffic * 10)
          let d : ℤ := round (rawDifficulty * 10)
          { keyword := keyword
            platform := platform
            trafficScore := some t
            difficultyScore := some d
            competitionLevel := getCompetitionLevel d
            trafficLevel := getTrafficLevel t
            recommendation := getRecommendation t d
            analysisSucceeded := true
            error := none }
        | _ =>
          failedAnalysis platform keyword
            "No difficulty data returned - insufficient ranking data"
      | _ =>
        failedAnalysis platform keyword
          "No traffic data returned - keyword may have no search volume"

/-- First-occurrence deduplication, as the specification words it: keep
each entry the first time its value is seen, in first-seen order.  `seen`
accumulates the values already emitted. -/
def eraseDupsKeepFirst (seen : List String) : List String → List String
  | [] => []
  | x :: xs =>
    if seen.contains x then eraseDupsKeepFirst seen xs
    else x :: eraseDupsKeepFirst (x :: seen) xs

/-- The Deduplicator contract as the specification words it (§4.1):
normalize every entry, drop entries that normalize to empty, and keep only
the first occurrence of each normalized form in first-seen order. -/
def specDedupe (raw : List String) : List String :=
  eraseDupsKeepFirst [] ((raw.map normalizeKeyword).filter (fun n => decide (n ≠ "")))

/-!
## Theorems
-/

lemma string_length_pos_iff {s : String} : s.length > 0 ↔ s ≠ "" := by
  constructor
  · intro h he
    subst he
    simp at h
  · intro h
    obtain ⟨d⟩ := s
    cases d with
    | nil => exact absurd rfl h
    | cons c cs => simp [String.length]

lemma eraseDupsKeepFirst_cons (seen : List String) (x : String) (xs : List String) :
    eraseDupsKeepFirst seen (x :: xs) =
      if seen.contains x then eraseDupsKeepFirst seen xs
      else x :: eraseDupsKeepFirst (x :: seen) xs := rfl

lemma dedupGo_eq (ks : List String) : ∀ seen : List String,
    deduplicateKeywordsGo seen ks =
      eraseDupsKeepFirst seen ((ks.map normalizeKeyword).filter (fun n => decide (n ≠ ""))) := by
  induction ks with
  | nil => intro seen; rfl
  | cons k ks ih =>
    intro seen
    simp only [deduplicateKeywordsGo, List.map_cons, List.filter_cons]
    split_ifs
    · rename_i h1 h2
      rw [eraseDupsKeepFirst_cons, if_neg (by simpa using h1.1)]
      exact congrArg _ (ih _)
    · rename_i h1 h2
      exact absurd (string_length_pos_iff.mp h1.2) (by simpa using h2)
    · rename_i h1 h3
      have hne : normalizeKeyword k ≠ "" := of_decide_eq_true h3
      cases hcontains : seen.contains (normalizeKeyword k) with
      | true => rw [eraseDupsKeepFirst_cons, if_pos hcontains]; exact ih seen
      | false =>
        exact absurd ⟨by simpa using hcontains, string_length_pos_iff.mpr hne⟩ h1
    · rename_i h1 h4
      exact ih seen

/-- C9: `deduplicateKeywords` is a pure function that normalizes each entry
(lowercase, trim, collapse internal whitespace runs to single spaces), drops
entries that normalize to empty, and keeps only the first occurrence of each
normalized form in first-seen order; on
`["Note Taker", " note   taker ", "NOTE TAKER"]` it returns
`["note taker"]`. -/
theorem dedupe_matches_spec :
    (∀ keywords, deduplicateKeywords keywords = specDedupe keywords) ∧
      deduplicateKeywords ["Note Taker", " note   taker ", "NOTE TAKER"] =
        ["note taker"] :=
  ⟨fun keywords => dedupGo_eq keywords [], by decide⟩

/-- C4: the recommendation is computed by the spec's exact first-match
policy, and the five boundary examples classify as stated. -/
theorem recommendation_policy_correct :
    (∀ t d : ℤ, getRecommendation t d = specRecommendationPolicy t d) ∧
      getRecommendation 85 32 = .excellent ∧
      getRecommendation 16 44 = .good ∧
      getRecommendation 92 88 = .challenging ∧
      getRecommendation 10 55 = .avoid ∧
      getRecommendation 20 50 = .consider := by
  refine ⟨fun t d => rfl, ?_, ?_, ?_, ?_, ?_⟩ <;> decide

/-- C5: for non-null inputs the opportunity score is
`round(t*0.6 + (100-d)*0.4)` (in particular 85/32 ↦ 78), and a null input
yields a null opportunity. -/
theorem opportunity_formula_correct :
    (∀ t d : ℤ, calculateOpportunityScore (some t) (some d) = some (specOpportunity t d)) ∧
      (∀ d, calculateOpportunityScore none d = none) ∧
      (∀ t, calculateOpportunityScore t none = none) ∧
      calculateOpportunityScore (some 85) (some 32) = some 78 := by
  refine ⟨fun t d => rfl, fun d => by cases d <;> rfl, fun t => by cases t <;> rfl, ?_⟩
  simp only [calculateOpportunityScore]
  norm_num [round_eq]

/-- C7: `ASOAnalyzer.analyzeKeyword` never raises — it is a total function of
the provider behaviour — and it equals the spec's scorer contract: validation
in the order well-formed object, traffic score, difficulty score, the first
failing check determining the error text and producing
`succeeded=false`/null scores/`analysis_failed`. -/
theorem scorer_matches_spec_validation_order :
    ∀ (platform : String) (b : ProviderBehavior) (keyword : String),
      analyzeKeyword platform b keyword = specScorerAnalyze platform b keyword := by
  intro platform b keyword
  cases b with
  | throwsErr msg => rfl
  | responds r =>
    obtain ⟨iso, t, d⟩ := r
    cases iso <;>
      [skip;
       (rcases t with _ | _ | q <;> rcases d with _ | _ | p)] <;>
      rfl

/-- A successful example result with opportunity 50 (Ranker example). -/
def exOk50 : KeywordResult :=
  { keyword := "alpha", traffic := some 50, difficulty := some 50,
    opportunity := some 50, recommendation := .consider,
    analysisSucceeded := true, error := none, analyzedAt := "t1" }

/-- A failed example result (Ranker example). -/
def exFail : KeywordResult :=
  { keyword := "beta", traffic := none, difficulty := none,
    opportunity := none, recommendation := .analysisFailed,
    analysisSucceeded := false, error := some "No traffic data returned",
    analyzedAt := "t2" }

/-- A successful example result with opportunity 90 (Ranker example). -/
def exOk90 : KeywordResult :=
  { keyword := "gamma", traffic := some 90, difficulty := some 30,
    opportunity := some 90, recommendation := .excellent,
    analysisSucceeded := true, error := none, analyzedAt := "t3" }

/-- C8: the finalizer outputs the successful results sorted by opportunity
descending followed by the failed results; both partitions are taken from
the input in analysis order (sublists of it), the sorted block is a
permutation of the successful partition that is pairwise descending in
opportunity, and for every fixed opportunity key the sorted block lists the
tied results in their original relative order (stability); the
`[50 ok, fail, 90 ok]` example finalizes to `[90, 50, fail]`. -/
theorem ranker_orders_results :
    (∀ rs : List KeywordResult,
        finalizeResults rs =
          List.insertionSort finalizeRel (rs.filter (·.analysisSucceeded)) ++
            rs.filter (fun r => !r.analysisSucceeded) ∧
        (rs.filter (fun r => !r.analysisSucceeded)).Sublist rs ∧
        (rs.filter (·.analysisSucceeded)).Sublist rs ∧
        (List.insertionSort finalizeRel (rs.filter (·.analysisSucceeded))).Perm
          (rs.filter (·.analysisSucceeded)) ∧
        (List.insertionSort finalizeRel (rs.filter (·.analysisSucceeded))).Pairwise
          (fun a b => oppKey b ≤ oppKey a) ∧
        ∀ q : ℤ,
          (List.insertionSort finalizeRel (rs.filter (·.analysisSucceeded))).filter
              (fun r => decide (oppKey r = q)) =
            (rs.filter (·.analysisSucceeded)).filter (fun r => decide (oppKey r = q))) ∧
      finalizeResults [exOk50, exFail, exOk90] = [exOk90, exOk50, exFail] := by
  refine ⟨fun rs => ⟨rfl, List.filter_sublist rs, List.filter_sublist rs,
    List.perm_insertionSort finalizeRel _,
    List.sorted_insertionSort finalizeRel _, fun q => ?_⟩, by decide⟩
  have hmemq : ∀ r ∈ (rs.filter (·.analysisSucceeded)).filter
      (fun r => decide (oppKey r = q)), oppKey r = q := by
    intro r hr
    exact of_decide_eq_true (List.mem_filter.mp hr).2
  have hpw : ((rs.filter (·.analysisSucceeded)).filter
      (fun r => decide (oppKey r = q))).Pairwise finalizeRel := by
    refine List.pairwise_of_forall_mem_list ?_
    intro a ha b hb
    unfold finalizeRel
    rw [hmemq a ha, hmemq b hb]
  have hcs := List.sublist_insertionSort hpw
    (List.filter_sublist (rs.filter (·.analysisSucceeded)))
  have hself : ((rs.filter (·.analysisSucceeded)).filter
        (fun r => decide (oppKey r = q))).filter (fun r => decide (oppKey r = q)) =
      (rs.filter (·.analysisSucceeded)).filter (fun r => decide (oppKey r = q)) := by
    rw [List.filter_filter]
    exact List.filter_congr (fun r _ => by cases h : decide (oppKey r = q) <;> simp [h])
  have hfs := hcs.filter (fun r => decide (oppKey r = q))
  rw [hself] at hfs
  have hperm := (List.perm_insertionSort finalizeRel
    (rs.filter (·.analysisSucceeded))).filter (fun r => decide (oppKey r = q))
  exact (hfs.eq_of_length hperm.length_eq.symm).symm

/-- The per-result invariant of the data model: opportunity is non-null iff
both scores are non-null and the analysis succeeded; the recommendation is
`analysis_failed` iff the analysis failed; and a failed analysis has all
three numeric fields null. -/
def resultInvariant (r : KeywordResult) : Prop :=
  (r.opportunity.isSome ↔ (r.traffic.isSome ∧ r.difficulty.isSome ∧
      r.analysisSucceeded = true)) ∧
    (r.recommendation = .analysisFailed ↔ r.analysisSucceeded = false) ∧
    (r.analysisSucceeded = false →
      r.traffic = none ∧ r.difficulty = none ∧ r.opportunity = none)

lemma getRecommendation_ne_failed (t d : ℤ) :
    getRecommendation t d ≠ .analysisFailed := by
  unfold getRecommendation
  split_ifs <;> simp

lemma analyzeKeyword_range (platform : String) (b : ProviderBehavior) (kw : String) :
    ((analyzeKeyword platform b kw).analysisSucceeded = true ∧
        (analyzeKeyword platform b kw).trafficScore.isSome ∧
        (analyzeKeyword platform b kw).difficultyScore.isSome ∧
        (analyzeKeyword platform b kw).recommendation ≠ .analysisFailed) ∨
      ((analyzeKeyword platform b kw).analysisSucceeded = false ∧
        (analyzeKeyword platform b kw).trafficScore = none ∧
        (analyzeKeyword platform b kw).difficultyScore = none ∧
        (analyzeKeyword platform b kw).recommendation = .analysisFailed) := by
  cases b with
  | throwsErr msg => exact Or.inr ⟨rfl, rfl, rfl, rfl⟩
  | responds r =>
    obtain ⟨iso, t, d⟩ := r
    cases iso
    · exact Or.inr ⟨rfl, rfl, rfl, rfl⟩
    · rcases t with _ | _ | q
      · exact Or.inr ⟨rfl, rfl, rfl, rfl⟩
      · exact Or.inr ⟨rfl, rfl, rfl, rfl⟩
      · rcases d with _ | _ | p
        · exact Or.inr ⟨rfl, rfl, rfl, rfl⟩
        · exact Or.inr ⟨rfl, rfl, rfl, rfl⟩
        · exact Or.inl ⟨rfl, rfl, rfl, getRecommendation_ne_failed _ _⟩

lemma scored_invariant_aux :
    ∀ (a : AnalysisOutput) (kw tstamp : String),
      ((a.analysisSucceeded = true ∧ a.trafficScore.isSome ∧
          a.difficultyScore.isSome ∧ a.recommendation ≠ .analysisFailed) ∨
        (a.analysisSucceeded = false ∧ a.trafficScore = none ∧
          a.difficultyScore = none ∧ a.recommendation = .analysisFailed)) →
      resultInvariant
        { keyword := kw
          traffic := a.trafficScore
          difficulty := a.difficultyScore
          opportunity :=
            if a.analysisSucceeded && a.trafficScore.isSome && a.difficultyScore.isSome then
              calculateOpportunityScore a.trafficScore a.difficultyScore
            else none
          recommendation := a.recommendation
          analysisSucceeded :=
            a.analysisSucceeded && a.trafficScore.isSome && a.difficultyScore.isSome
          error := a.error
          analyzedAt := tstamp } := by
  rintro ⟨_, _, ts, ds, _, _, rec, su, _⟩ kw tstamp
    (⟨hs, ht, hd, hrec⟩ | ⟨hs, ht, hd, hrec⟩)
  · subst hs
    rcases ts with _ | tv
    · simp at ht
    rcases ds with _ | dv
    · simp at hd
    unfold resultInvariant
    refine ⟨?_, ?_, ?_⟩ <;> simp [calculateOpportunityScore, hrec]
  · subst hs
    subst ht
    subst hd
    subst hrec
    unfold resultInvariant
    simp [calculateOpportunityScore]

lemma scoredResult_invariant (env : RunEnv) (kws : List String) (i : ℕ) :
    resultInvariant (scoredResult env kws i) :=
  scored_invariant_aux (analyzeKeyword "itunes" (env.behavior i) (kws.getD i ""))
    (kws.getD i "") (env.time i)
    (analyzeKeyword_range "itunes" (env.behavior i) (kws.getD i ""))

lemma caughtFailureResult_invariant (kws : List String) (i : ℕ) (msg t : String) :
    resultInvariant (caughtFailureResult kws i msg t) := by
  unfold caughtFailureResult resultInvariant
  simp

/-- Provided every progress-file write in a run succeeds, the loop over the
index list `is` appends exactly the scored results of those indices, in
order, to the in-memory list. -/
lemma runGo_ok_results (kws : List String) (appData : String) (env : RunEnv)
    (hw : ∀ w, env.writeRes w = none) :
    ∀ (is : List ℕ) (s : RunState), ∃ s',
      runGo kws appData env is s = .ok s' ∧
        s'.results = s.results ++ is.map (scoredResult env kws) := by
  intro is
  induction is with
  | nil => intro s; exact ⟨s, rfl, by simp⟩
  | cons i is ih =>
    intro s
    obtain ⟨s', hok, hres⟩ := ih
      (recordWrite { s with results := s.results ++ [scoredResult env kws i] }
        (mkCheckpoint appData i kws.length (s.results ++ [scoredResult env kws i])
          (env.time i)))
    refine ⟨s', ?_, ?_⟩
    · simp only [runGo, runStep, hw s.writes]
      exact hok
    · rw [hres]
      simp [recordWrite]

/-- C2: resuming from a valid checkpoint with `lastAnalyzedIndex = k` over
`n = kws.length` keywords (`k < n`), in a run whose checkpoint writes all
succeed, produces a pre-Ranker result list of length `n` whose first `k+1`
entries are exactly the checkpointed results — they are not re-scored or
re-ordered — while the remaining entries are the scored results of indices
`k+1 .. n-1`, in order. -/
theorem resume_scores_only_remaining :
    ∀ (kws : List String) (appData : String) (env : RunEnv) (cp : Checkpoint)
      (k : ℕ),
      cp.lastAnalyzedIndex = k →
      cp.results.length = k + 1 →
      k < kws.length →
      (∀ w, env.writeRes w = none) →
      ∃ s, runBatch kws appData env (some cp) = .ok s ∧
        s.results.length = kws.length ∧
        s.results.take (k + 1) = cp.results ∧
        s.results.drop (k + 1) =
          (List.range' (k + 1) (kws.length - (k + 1))).map (scoredResult env kws) := by
  intro kws appData env cp k hidx hlen hk hw
  obtain ⟨s, hok, hres⟩ := runGo_ok_results kws appData env hw
    (List.range' (cp.lastAnalyzedIndex + 1) (kws.length - (cp.lastAnalyzedIndex + 1)))
    { results := cp.results, durable := some cp, written := [], writes := 0 }
  subst hidx
  refine ⟨s, hok, ?_, ?_, ?_⟩
  · rw [hres]
    simp only [List.length_append, List.length_map, List.length_range']
    rw [hlen]
    omega
  · rw [hres]
    exact List.take_left' hlen
  · rw [hres]
    exact List.drop_left' hlen

/-- A two-keyword list for concrete runs. -/
def wKws : List String := ["note taker", "voice memo"]

/-- A concrete environment whose provider always throws and whose writes all
succeed. -/
def envAllOk : RunEnv :=
  { behavior := fun _ => .throwsErr "network timeout"
    time := fun _ => "2025-06-01T00:00:00.000Z"
    writeRes := fun _ => none }

/-- A concrete valid checkpoint over `wKws` with one analyzed keyword. -/
def wCp : Checkpoint :=
  { appData := "app", lastAnalyzedIndex := 0, totalKeywords := 2,
    results := [exOk50], lastUpdated := "t0" }

/-- Witness for the resume theorem at a concrete checkpoint and run. -/
theorem resume_scores_only_remaining_witness :
    ∃ s, runBatch wKws "app" envAllOk (some wCp) = .ok s ∧
      s.results.length = wKws.length ∧
      s.results.take (0 + 1) = wCp.results ∧
      s.results.drop (0 + 1) =
        (List.range' (0 + 1) (wKws.length - (0 + 1))).map (scoredResult envAllOk wKws) :=
  resume_scores_only_remaining wKws "app" envAllOk wCp 0 rfl rfl (by decide)
    (fun _ => rfl)

lemma runGo_invariant (kws : List String) (appData : String) (env : RunEnv) :
    ∀ (is : List ℕ) (s : RunState),
      (∀ r ∈ s.results, resultInvariant r) →
      ∀ s', runGo kws appData env is s = .ok s' →
        ∀ r ∈ s'.results, resultInvariant r := by
  intro is
  induction is with
  | nil =>
    intro s hs s' hok
    cases hok
    exact hs
  | cons i is ih =>
    intro s hs s' hok
    rw [runGo] at hok
    unfold runStep at hok
    cases hw0 : env.writeRes s.writes with
    | none =>
      simp only [hw0] at hok
      refine ih _ ?_ s' hok
      intro r hr
      simp only [recordWrite, List.mem_append, List.mem_singleton] at hr
      rcases hr with hr | hr
      · exact hs r hr
      · rw [hr]
        exact scoredResult_invariant env kws i
    | some msg =>
      simp only [hw0] at hok
      cases hw1 : env.writeRes (s.writes + 1) with
      | none =>
        simp only [hw1] at hok
        refine ih _ ?_ s' hok
        intro r hr
        simp only [recordWrite, List.mem_append, List.mem_singleton] at hr
        rcases hr with (hr | hr) | hr
        · exact hs r hr
        · rw [hr]
          exact scoredResult_invariant env kws i
        · rw [hr]
          exact caughtFailureResult_invariant kws i msg (env.time i)
      | some msg2 =>
        simp only [hw1] at hok
        cases hok

/-- C6: every `KeywordResult` in the result list of a completed fresh run —
for any provider behaviour and any write-outcome pattern — satisfies the
data-model invariant: opportunity non-null iff both scores non-null and
succeeded, recommendation `analysis_failed` iff failed, and all numeric
fields null on failure. -/
theorem pipeline_results_satisfy_invariant :
    ∀ (kws : List String) (appData : String) (env : RunEnv) (s : RunState),
      runBatch kws appData env none = .ok s →
      ∀ r ∈ s.results, resultInvariant r := by
  intro kws appData env s hok
  exact runGo_invariant kws appData env (List.range' 0 kws.length)
    { results := [], durable := none, written := [], writes := 0 }
    (by intro r hr; cases hr) s hok

/-- The state produced by the concrete fresh run over `wKws` in `envAllOk`. -/
def sRunW : RunState :=
  { results := [scoredResult envAllOk wKws 0, scoredResult envAllOk wKws 1]
    durable := some (mkCheckpoint "app" 1 2
      [scoredResult envAllOk wKws 0, scoredResult envAllOk wKws 1]
      "2025-06-01T00:00:00.000Z")
    written :=
      [mkCheckpoint "app" 0 2 [scoredResult envAllOk wKws 0]
        "2025-06-01T00:00:00.000Z",
       mkCheckpoint "app" 1 2
        [scoredResult envAllOk wKws 0, scoredResult envAllOk wKws 1]
        "2025-06-01T00:00:00.000Z"]
    writes := 2 }

/-- Witness for the invariant theorem at a concrete run. -/
theorem pipeline_results_satisfy_invariant_witness :
    resultInvariant (scoredResult envAllOk wKws 0) :=
  pipeline_results_satisfy_invariant wKws "app" envAllOk sRunW rfl
    (scoredResult envAllOk wKws 0) (by simp [sRunW])

/-- A one-keyword list for the write-failure runs. -/
def kws1 : List String := ["note taker"]

/-- A concrete environment whose provider always throws, whose first
progress-file write fails with a disk error, and whose writes succeed
thereafter (a transient storage failure). -/
def envFirstWriteFails : RunEnv :=
  { behavior := fun _ => .throwsErr "network timeout"
    time := fun _ => "2025-06-01T00:00:00.000Z"
    writeRes := fun w =>
      if w = 0 then some "ENOSPC: no space left on device" else none }

/-- C1 (code bug): a failing checkpoint write is not fatal.  In the concrete
one-keyword run whose first checkpoint write throws a disk error and whose
retry succeeds, the run completes successfully (`toOption` is `some`, the
error is never propagated) and the result list holds two entries for the one
keyword: the original result and a spurious `analysis_failed` record whose
error text is the storage error — the loop's `catch` treated the write
failure as a keyword-analysis failure. -/
theorem checkpoint_write_failure_not_fatal :
    (runBatch kws1 "app" envFirstWriteFails none).toOption.map
        (fun s => s.results.map (fun r => (r.keyword, r.error))) =
      some [("note taker", some "network timeout"),
        ("note taker", some "ENOSPC: no space left on device")] := by
  decide

/-- C3 (code bug): in the same transient-write-failure run, the single
durable checkpoint write performed by the loop carries
`lastAnalyzedIndex = 0` but a results list of length 2, violating
`len(results) == lastAnalyzedIndex + 1`. -/
theorem durable_write_length_invariant_violated :
    (runBatch kws1 "app" envFirstWriteFails none).toOption.map
        (fun s => s.written.map (fun cp => (cp.results.length, cp.lastAnalyzedIndex))) =
      some [(2, 0)] := by
  decide

/-- A concrete intermediate summary object (empty run). -/
def pdEmpty : SummaryData :=
  generateSummaryData [] [] "Example App" "2025-06-01T00:00:00.000Z"

/-- A concrete clock environment. -/
def clockA : ClockEnv :=
  { nowLocale := "6/1/2025, 12:00:00 AM"
    toLocale := fun _ => "6/1/2025, 12:00:00 AM" }

/-- The same locale environment read one day later. -/
def clockB : ClockEnv :=
  { nowLocale := "6/2/2025, 9:30:00 AM"
    toLocale := fun _ => "6/1/2025, 12:00:00 AM" }

set_option maxRecDepth 40000 in
/-- C10 counterexample: two evaluations of the report renderer on the
identical input produce different text when the wall clock has moved —
`generateSummaryText` embeds `new Date().toLocaleString()` in the
`Analysis Date` line, so it is not deterministic in its input alone. -/
theorem render_differs_across_evaluations :
    generateSummaryText (.progress pdEmpty) clockA ≠
      generateSummaryText (.progress pdEmpty) clockB := by
  decide

/-- C10 (amended): the tier counts produced by `generateSummaryData` are
identical across evaluations regardless of the clock; the whole summary
object differs only in its `lastUpdated` field; and the rendered text is
identical across evaluations whenever the two evaluations read the same
wall-clock/locale values. -/
theorem summary_deterministic_given_clock :
    ∀ (results : List KeywordResult) (allKeywords : List String) (appData : String)
      (t₁ t₂ : String),
      (generateSummaryData results allKeywords appData t₁).summary =
        (generateSummaryData results allKeywords appData t₂).summary ∧
      generateSummaryData results allKeywords appData t₁ =
        { generateSummaryData results allKeywords appData t₂ with lastUpdated := t₁ } ∧
      ∀ (input : ReportInput) (c₁ c₂ : ClockEnv),
        c₁.nowLocale = c₂.nowLocale → c₁.toLocale = c₂.toLocale →
        generateSummaryText input c₁ = generateSummaryText input c₂ := by
  intro results allKeywords appData t₁ t₂
  refine ⟨rfl, rfl, ?_⟩
  rintro input ⟨n₁, f₁⟩ ⟨n₂, f₂⟩ hn hf
  cases hn
  cases hf
  rfl

/-- Witness for the amended summary-determinism theorem at a concrete
input and clock. -/
theorem summary_deterministic_given_clock_witness :
    generateSummaryText (.progress pdEmpty) clockA =
      generateSummaryText (.progress pdEmpty) clockA :=
  (summary_deterministic_given_clock [] [] "Example App"
    "2025-06-01T00:00:00.000Z" "2025-06-02T00:00:00.000Z").2.2
    (.progress pdEmpty) clockA clockA rfl rfl

end ASO
